import Mathlib

/-!
Verification of the filter-to-render pipeline of the Streamlit GIS dashboard
(`app.py`): a loader for a Mexican-states boundary dataset, a name-based
multiselect filter, a statistics presenter (table sorted by descending area
plus three scalar summaries), a bar/pie chart pair, and a folium map scene
with optional overlays.  The Python script is shallowly embedded below:
geopandas, folium and streamlit are treated as black boxes, so a region's
reprojected area (`geometry.to_crs(epsg=6933).area`, in square metres) is an
abstract rational field of the record, and each map-building library call
becomes an explicit scene-transforming step.
-/

/-- RegionRecord: one row of the GeoDataFrame loaded from
`georef-mexico-state.geojson`.  `areaM2_6933` abstracts the area in square
metres of the geometry reprojected to EPSG:6933 (an external library call). -/
structure RegionRecord where
  sta_name : String
  sta_code : String
  sta_type : String
  areaM2_6933 : ℚ
deriving DecidableEq

/-- FilterSelection: the value of the sidebar multiselect `estado_seleccionado`
(a list of state names; the empty list is the sentinel for "all regions"). -/
abbrev FilterSelection := List String

/-- Filter stage, app.py lines 57-61:
`gdf_filtrado = gdf_estados[gdf_estados['sta_name'].isin(estado_seleccionado)]`
when the selection is non-empty (Python truthiness), else the full frame. -/
def filterRecords (rows : List RegionRecord) (sel : FilterSelection) :
    List RegionRecord :=
  if sel.isEmpty then rows
  else rows.filter (fun r => sel.contains r.sta_name)

/-- Rounding to two decimal places, as `round(x, 2)` applied by app.py to the
area column and to the mean metric. -/
def round2 (q : ℚ) : ℚ := (round (q * 100) : ℚ) / 100

/-- Displayed area of one region, app.py line 73:
`round(gdf_filtrado.geometry.to_crs(epsg=6933).area / 10**6, 2)`. -/
def areaKm2 (r : RegionRecord) : ℚ := round2 (r.areaM2_6933 / 10 ^ 6)

/-- StatRow: one row of the derived DataFrame `df_estados`
(columns Estado, Código, Tipo, Área (km²)). -/
structure StatRow where
  estado : String
  codigo : String
  tipo : String
  area : ℚ
deriving DecidableEq

/-- Row of `df_estados` built from one region record (app.py lines 69-74). -/
def mkStatRow (r : RegionRecord) : StatRow :=
  ⟨r.sta_name, r.sta_code, r.sta_type, areaKm2 r⟩

/-- The DataFrame `df_estados` built from the filtered view. -/
def mkDfEstados (rows : List RegionRecord) : List StatRow :=
  rows.map mkStatRow

/-- Table display order, app.py line 79:
`df_estados.sort_values('Área (km²)', ascending=False)`. -/
def sortDescArea (df : List StatRow) : List StatRow :=
  List.insertionSort (fun a b => b.area ≤ a.area) df

/-- Bar-chart order, app.py line 90:
`df_estados.sort_values('Área (km²)', ascending=True)`. -/
def sortAscArea (df : List StatRow) : List StatRow :=
  List.insertionSort (fun a b => a.area ≤ b.area) df

/-- Left-to-right maximum choice mirroring `Series.idxmax`: the earlier row
wins ties, a strictly larger area replaces the current best. -/
def pickRow (best x : StatRow) : StatRow :=
  if best.area < x.area then x else best

/-- Row selected by `df_estados['Área (km²)'].idxmax()` (app.py line 83):
the first row attaining the maximal area, `none` on an empty frame. -/
def firstMaxRow : List StatRow → Option StatRow
  | [] => none
  | r :: rs => some (rs.foldl pickRow r)

/-- Scalar summary `df_estados.loc[idxmax, 'Estado']` ("Estado más extenso"). -/
def reportedLargest (df : List StatRow) : Option String :=
  (firstMaxRow df).map (fun r => r.estado)

/-- Scalar summary `df_estados['Área (km²)'].max()` ("Área máxima (km²)"). -/
def areaColMax : List StatRow → Option ℚ
  | [] => none
  | r :: rs => some (rs.foldl (fun m x => max m x.area) r.area)

/-- Scalar summary `round(df_estados['Área (km²)'].mean(), 2)`
("Área promedio (km²)"), app.py line 85. -/
def meanAreaMetric (df : List StatRow) : ℚ :=
  round2 ((df.map (fun x => x.area)).sum / (df.length : ℚ))

/-- Options of the multiselect, app.py line 49:
`gdf_estados['sta_name'].sort_values().unique()`. -/
def estados_disponibles (rows : List RegionRecord) : List String :=
  (List.insertionSort (fun a b : String => a ≤ b)
    (rows.map (fun r => r.sta_name))).dedup

instance statRowDescTotal : IsTotal StatRow (fun a b => b.area ≤ a.area) :=
  ⟨fun a b => (le_total a.area b.area).symm⟩

instance statRowDescTrans : IsTrans StatRow (fun a b => b.area ≤ a.area) :=
  ⟨fun _ _ _ hab hbc => le_trans hbc hab⟩

instance statRowAscTotal : IsTotal StatRow (fun a b => a.area ≤ b.area) :=
  ⟨fun a b => le_total a.area b.area⟩

instance statRowAscTrans : IsTrans StatRow (fun a b => a.area ≤ b.area) :=
  ⟨fun _ _ _ hab hbc => le_trans hab hbc⟩

/-- Concrete region "A" of the spec scenario (10 km² = 10^7 m²). -/
def recA : RegionRecord := ⟨"A", "01", "Estado", 10000000⟩

/-- Concrete region "B" of the spec scenario (30 km²). -/
def recB : RegionRecord := ⟨"B", "02", "Estado", 30000000⟩

/-- Concrete region "C" of the spec scenario (20 km²). -/
def recC : RegionRecord := ⟨"C", "03", "Estado", 20000000⟩

/-- The spec scenario dataset, in order A, B, C. -/
def datasetABC : List RegionRecord := [recA, recB, recC]

/-- LoadError: the two fatal startup failures of the loader section. -/
inductive LoadError
  | DatasetNotFound
  | DatasetParseError
deriving DecidableEq

/-- Crash: an uncaught Python exception aborting the render pass
(`KeyError` on a missing DataFrame column, `NameError` on an unbound name). -/
inductive Crash
  | keyError (column : String)
  | nameError (nm : String)
deriving DecidableEq

/-- AppFailure: how a render pass ends when it does not produce a page. -/
inductive AppFailure
  | halted (e : LoadError)
  | crash (c : Crash)
deriving DecidableEq

/-- GeoDataFrame: the parsed dataset together with its column list, so that
missing-column accesses (`KeyError`) can be modelled. -/
structure GeoDataFrame where
  columns : List String
  rows : List RegionRecord
deriving DecidableEq

/-- Marker: a folium point marker (city label plus latitude/longitude). -/
structure Marker where
  city : String
  lat : ℚ
  lng : ℚ
deriving DecidableEq

/-- Hardcoded capital markers, app.py lines 227-234: a fixed six-entry table
independent of the active filter. -/
def capitales : List Marker :=
  [⟨"CDMX", 194326 / 10000, -991332 / 10000⟩,
   ⟨"Guadalajara", 206597 / 10000, -1033496 / 10000⟩,
   ⟨"Monterrey", 256866 / 10000, -1003161 / 10000⟩,
   ⟨"Puebla", 190414 / 10000, -982063 / 10000⟩,
   ⟨"Tijuana", 325149 / 10000, -1170382 / 10000⟩,
   ⟨"León", 211250 / 10000, -1016860 / 10000⟩]

/-- Scene: the folium map object `m`, recording the base tiles, the GeoJson
states layer (with the records it was built from), which plugins were added,
the point markers, the extra tile layers and the layer control. -/
structure Scene where
  tiles : String
  statesLayer : Option (List RegionRecord)
  hasMeasure : Bool
  hasMousePos : Bool
  hasDraw : Bool
  hasFullscreen : Bool
  markers : List Marker
  extraTileLayers : List String
  hasLayerControl : Bool
deriving DecidableEq

/-- Initial map object, app.py lines 135-141 (`folium.Map(...)`). -/
def initMap (capaBase : String) : Scene :=
  ⟨capaBase, none, false, false, false, false, [], [], false⟩

/-- GeoJson states layer built from the filtered frame, app.py lines 157-177. -/
def addStatesLayer (filtered : List RegionRecord) (s : Scene) : Scene :=
  { s with statesLayer := some filtered }

/-- MeasureControl plugin, app.py lines 182-188. -/
def addMeasure (s : Scene) : Scene := { s with hasMeasure := true }

/-- MousePosition plugin, app.py lines 191-198. -/
def addMousePosition (s : Scene) : Scene := { s with hasMousePos := true }

/-- Draw plugin, app.py lines 202-212 (added only when the toggle is on). -/
def addDraw (s : Scene) : Scene := { s with hasDraw := true }

/-- Fullscreen plugin, app.py lines 215-220. -/
def addFullscreen (s : Scene) : Scene := { s with hasFullscreen := true }

/-- Capital markers loop, app.py lines 236-241: adds the six hardcoded
markers to the marker cluster. -/
def addCapitales (s : Scene) : Scene :=
  { s with markers := s.markers ++ capitales }

/-- One extra `folium.TileLayer`, app.py lines 244-260. -/
def addTileLayer (nm : String) (s : Scene) : Scene :=
  { s with extraTileLayers := s.extraTileLayers ++ [nm] }

/-- LayerControl, app.py line 263. -/
def addLayerControl (s : Scene) : Scene := { s with hasLayerControl := true }

/-- Sequence of scene-building steps inside the `try` block after the map
object itself is created, in source order; the two conditional steps mirror
the `if mostrar_herramientas` and `if mostrar_capitales` branches. -/
def mapSteps (filtered : List RegionRecord) (caps herr : Bool) :
    List (Scene → Scene) :=
  [addStatesLayer filtered, addMeasure, addMousePosition] ++
    (if herr then [addDraw] else []) ++
    [addFullscreen] ++
    (if caps then [addCapitales] else []) ++
    [addTileLayer "OpenStreetMap", addTileLayer "Stamen Terrain",
     addTileLayer "Stamen Toner", addLayerControl]

/-- Scene produced when every step of the try block succeeds. -/
def builtScene (capaBase : String) (filtered : List RegionRecord)
    (caps herr : Bool) : Scene :=
  (mapSteps filtered caps herr).foldl (fun s f => f s) (initMap capaBase)

/-- Scene present after the first `k` post-construction steps completed. -/
def sceneUpTo (capaBase : String) (filtered : List RegionRecord)
    (caps herr : Bool) (k : Nat) : Scene :=
  ((mapSteps filtered caps herr).take k).foldl (fun s f => f s)
    (initMap capaBase)

/-- Message reported by the `except` handler, app.py line 266. -/
def mapErrorMsg : String := "Error al crear el mapa"

/-- Try block of app.py lines 133-266.  `failStep` abstracts which statement
raises (`none`: no exception; `some 0`: `folium.Map` itself; `some (k+1)`: the
step after the first `k` post-construction steps).  Returns the text reported
by the except handler, and the value bound to `m` (none when the map
construction itself raised, so `m` was never bound). -/
def tryBuildMap (capaBase : String) (filtered : List RegionRecord)
    (caps herr : Bool) (failStep : Option Nat) :
    Option String × Option Scene :=
  match failStep with
  | none => (none, some (builtScene capaBase filtered caps herr))
  | some 0 => (some mapErrorMsg, none)
  | some (k + 1) =>
      (some mapErrorMsg, some (sceneUpTo capaBase filtered caps herr k))

/-- Map section of the page: the try block followed by
`st_folium(m, width=1000, height=600)` (app.py line 269), which raises
`NameError` when the try block failed before binding `m`. -/
def mapSection (capaBase : String) (filtered : List RegionRecord)
    (caps herr : Bool) (failStep : Option Nat) :
    Except AppFailure (Option String × Scene) :=
  match tryBuildMap capaBase filtered caps herr failStep with
  | (_, none) => .error (.crash (.nameError "m"))
  | (e, some s) => .ok (e, s)

/-- RenderOutput: everything a successful render pass puts on the page. -/
structure RenderOutput where
  statsTable : List StatRow
  largestEstado : Option String
  maxAreaShown : Option ℚ
  meanAreaShown : ℚ
  barChart : List StatRow
  pieCounts : Option (List (String × Nat))
  mapError : Option String
  mapScene : Scene
deriving DecidableEq

/-- Env: the inputs of one render pass — filesystem state, parse outcome,
widget state, and the abstract point of failure of the map try block. -/
structure Env where
  fileExists : Bool
  parsed : Option GeoDataFrame
  selection : FilterSelection
  capaBase : String
  mostrarCapitales : Bool
  mostrarHerramientas : Bool
  mapFailStep : Option Nat
deriving DecidableEq

instance exceptDecEq {ε α : Type} [DecidableEq ε] [DecidableEq α] :
    DecidableEq (Except ε α) := fun x y =>
  match x, y with
  | .error a, .error b =>
      if h : a = b then isTrue (by rw [h])
      else isFalse (fun he => h (by cases he; rfl))
  | .error _, .ok _ => isFalse (fun he => Except.noConfusion he)
  | .ok _, .error _ => isFalse (fun he => Except.noConfusion he)
  | .ok a, .ok b =>
      if h : a = b then isTrue (by rw [h])
      else isFalse (fun he => h (by cases he; rfl))

/-- Statistics block, app.py lines 67-85: skipped entirely when the filtered
frame is empty; otherwise builds `df_estados`, whose dict literal accesses
the columns `sta_name`, `sta_code`, `sta_type` in that order and raises
`KeyError` on the first absent one. -/
def statsBlock (gdf : GeoDataFrame) (filtered : List RegionRecord) :
    Except AppFailure (Option (List StatRow)) :=
  if filtered.isEmpty then .ok none
  else if "sta_name" ∈ gdf.columns then
    if "sta_code" ∈ gdf.columns then
      if "sta_type" ∈ gdf.columns then .ok (some (mkDfEstados filtered))
      else .error (.crash (.keyError "sta_type"))
    else .error (.crash (.keyError "sta_code"))
  else .error (.crash (.keyError "sta_name"))

/-- Category counts `gdf_filtrado['sta_type'].value_counts()` (app.py line
104): distinct values with their multiplicities, sorted by count descending. -/
def valueCounts (l : List String) : List (String × Nat) :=
  List.insertionSort (fun a b : String × Nat => b.2 ≤ a.2)
    (l.dedup.map (fun v => (v, l.count v)))

/-- The whole script, app.py top to bottom: existence check and `st.stop`
(lines 17-23), load and `st.stop` on parse failure (lines 25-37), the
`sta_name` access of line 49, the filter (lines 57-61), the statistics block
(lines 67-85), the bar chart over `df_estados` (lines 88-99, `NameError` when
the statistics block was skipped and never bound `df_estados`), the guarded
pie chart (lines 102-117), the map try block (lines 133-266) and
`st_folium(m)` (line 269). -/
def runApp (env : Env) : Except AppFailure RenderOutput :=
  if env.fileExists = false then .error (.halted .DatasetNotFound)
  else
    match env.parsed with
    | none => .error (.halted .DatasetParseError)
    | some gdf =>
      if "sta_name" ∈ gdf.columns then
        let filtered := filterRecords gdf.rows env.selection
        match statsBlock gdf filtered with
        | .error e => .error e
        | .ok none => .error (.crash (.nameError "df_estados"))
        | .ok (some df) =>
          let pie := if "sta_type" ∈ gdf.columns then
              some (valueCounts (filtered.map (fun r => r.sta_type)))
            else none
          match mapSection env.capaBase filtered env.mostrarCapitales
              env.mostrarHerramientas env.mapFailStep with
          | .error e => .error e
          | .ok (mapErr, scene) =>
            .ok ⟨sortDescArea df, reportedLargest df, areaColMax df,
                 meanAreaMetric df, sortAscArea df, pie, mapErr, scene⟩
      else .error (.crash (.keyError "sta_name"))

/-- The standard three-column dataset of the concrete scenario. -/
def gdfABC : GeoDataFrame :=
  ⟨["sta_name", "sta_code", "sta_type", "geometry"], datasetABC⟩

/-- Dataset lacking the `sta_type` column, with one region. -/
def gdfNoType : GeoDataFrame := ⟨["sta_name", "sta_code", "geometry"], [recA]⟩

/-- Render pass over `gdfNoType` with the empty (all-regions) selection. -/
def envNoType : Env :=
  ⟨true, some gdfNoType, [], "CartoDB positron", true, true, none⟩

/-- Render pass over `gdfNoType` whose selection matches no region. -/
def envNoTypeEmptyView : Env :=
  ⟨true, some gdfNoType, ["Z"], "CartoDB positron", true, true, none⟩

/-- Render pass over `gdfABC` whose selection matches no region. -/
def envEmptyView : Env :=
  ⟨true, some gdfABC, ["Z"], "CartoDB positron", true, true, none⟩

/-- Render pass over `gdfABC` in which `folium.Map(...)` itself raises. -/
def envMapFail0 : Env :=
  ⟨true, some gdfABC, [], "CartoDB positron", true, true, some 0⟩

/-- Render pass with a missing dataset file. -/
def envNoFile : Env :=
  ⟨false, none, [], "CartoDB positron", true, true, none⟩

/-- Render pass whose dataset file exists but fails to parse. -/
def envBadParse : Env :=
  ⟨true, none, [], "CartoDB positron", true, true, none⟩

lemma pickRow_area (b x : StatRow) : (pickRow b x).area = max b.area x.area := by
  unfold pickRow
  rcases lt_or_le b.area x.area with h | h
  · rw [if_pos h, max_eq_right h.le]
  · rw [if_neg (not_lt.mpr h), max_eq_left h]

lemma foldl_pickRow_area : ∀ (rs : List StatRow) (b : StatRow),
    (rs.foldl pickRow b).area = rs.foldl (fun m x => max m x.area) b.area := by
  intro rs
  induction rs with
  | nil => intro b; rfl
  | cons x rs ih =>
    intro b
    simp only [List.foldl_cons]
    rw [ih, pickRow_area]

lemma foldl_pickRow_mem : ∀ (rs : List StatRow) (b : StatRow),
    rs.foldl pickRow b ∈ b :: rs := by
  intro rs
  induction rs with
  | nil => intro b; simp
  | cons x rs ih =>
    intro b
    have hp : pickRow b x = x ∨ pickRow b x = b := by
      unfold pickRow
      split
      · exact Or.inl rfl
      · exact Or.inr rfl
    have h := ih (pickRow b x)
    simp only [List.foldl_cons, List.mem_cons] at h ⊢
    rcases h with h | h
    · rcases hp with hx | hb
      · exact Or.inr (Or.inl (by rw [h, hx]))
      · exact Or.inl (by rw [h, hb])
    · exact Or.inr (Or.inr h)

lemma le_foldl_maxArea : ∀ (l : List StatRow) (a : ℚ),
    a ≤ l.foldl (fun m x => max m x.area) a := by
  intro l
  induction l with
  | nil => intro a; exact le_refl a
  | cons x l ih =>
    intro a
    simp only [List.foldl_cons]
    exact le_trans (le_max_left a x.area) (ih (max a x.area))

lemma mem_le_foldl_maxArea : ∀ (l : List StatRow) (a : ℚ) (x : StatRow),
    x ∈ l → x.area ≤ l.foldl (fun m y => max m y.area) a := by
  intro l
  induction l with
  | nil => intro a x hx; cases hx
  | cons y l ih =>
    intro a x hx
    simp only [List.foldl_cons]
    rcases List.mem_cons.mp hx with rfl | hx
    · exact le_trans (le_max_right a x.area) (le_foldl_maxArea l _)
    · exact ih _ x hx

/-- Claim C1: the filter returns a subsequence of the collection preserving
original order; the empty selection returns the full collection unchanged; a
non-empty selection keeps exactly the records whose `sta_name` is a member of
the selection (exact string equality). -/
theorem C1_filter_correct (rows : List RegionRecord) (sel : FilterSelection) :
    (filterRecords rows sel).Sublist rows ∧
    (sel = [] → filterRecords rows sel = rows) ∧
    (sel ≠ [] →
      filterRecords rows sel =
        rows.filter (fun r => sel.contains r.sta_name) ∧
      ∀ r : RegionRecord,
        r ∈ filterRecords rows sel ↔ r ∈ rows ∧ r.sta_name ∈ sel) := by
  refine ⟨?_, ?_, ?_⟩
  · unfold filterRecords
    split
    · exact List.Sublist.refl rows
    · exact List.filter_sublist rows
  · intro h
    simp [filterRecords, h]
  · intro h
    have hne : sel.isEmpty = false := by
      cases sel with
      | nil => exact absurd rfl h
      | cons a l => rfl
    refine ⟨by simp [filterRecords, hne], ?_⟩
    intro r
    simp [filterRecords, hne, List.mem_filter]

/-- Witness for C1 at the concrete scenario dataset. -/
theorem C1_filter_correct_witness :
    filterRecords datasetABC [] = datasetABC ∧
    (recB ∈ filterRecords datasetABC ["B", "C"] ↔
      recB ∈ datasetABC ∧ recB.sta_name ∈ ["B", "C"]) := by
  refine ⟨(C1_filter_correct datasetABC []).2.1 rfl, ?_⟩
  exact ((C1_filter_correct datasetABC ["B", "C"]).2.2 (by decide)).2 recB

/-- Claim C2: for every non-empty filtered view the statistics presenter
shows a table sorted by descending area that is a permutation of
`df_estados`; the reported largest-region name is the name of a row of
`df_estados` whose area equals the reported column maximum, which bounds
every displayed area; and the reported mean equals the arithmetic mean of
the displayed (rounded) area column, rounded to two decimals. -/
theorem C2_stats_invariant (filtered : List RegionRecord)
    (hne : filtered ≠ []) :
    (sortDescArea (mkDfEstados filtered)).Sorted
        (fun a b => b.area ≤ a.area) ∧
    (sortDescArea (mkDfEstados filtered)).Perm (mkDfEstados filtered) ∧
    (∃ r : StatRow, r ∈ mkDfEstados filtered ∧
      reportedLargest (mkDfEstados filtered) = some r.estado ∧
      areaColMax (mkDfEstados filtered) = some r.area ∧
      ∀ x ∈ mkDfEstados filtered, x.area ≤ r.area) ∧
    meanAreaMetric (mkDfEstados filtered) =
      round2 (((mkDfEstados filtered).map (fun x => x.area)).sum /
        ((mkDfEstados filtered).length : ℚ)) := by
  refine ⟨List.sorted_insertionSort _ _, List.perm_insertionSort _ _, ?_, rfl⟩
  obtain ⟨r0, rs, hdf⟩ : ∃ r0 rs, mkDfEstados filtered = r0 :: rs := by
    cases hfil : filtered with
    | nil => exact absurd hfil hne
    | cons a l => exact ⟨mkStatRow a, mkDfEstados l, by simp [mkDfEstados]⟩
  refine ⟨rs.foldl pickRow r0, ?_, ?_, ?_, ?_⟩
  · rw [hdf]
    exact foldl_pickRow_mem rs r0
  · rw [hdf]
    rfl
  · rw [hdf]
    simp only [areaColMax, foldl_pickRow_area]
  · intro x hx
    rw [hdf] at hx
    rw [foldl_pickRow_area]
    rcases List.mem_cons.mp hx with rfl | hx
    · exact le_foldl_maxArea rs x.area
    · exact mem_le_foldl_maxArea rs r0.area x hx

/-- Witness for C2 at the filtered view [B, C] of the concrete scenario. -/
theorem C2_stats_invariant_witness :
    (sortDescArea (mkDfEstados [recB, recC])).Sorted
        (fun a b => b.area ≤ a.area) ∧
    (sortDescArea (mkDfEstados [recB, recC])).Perm
      (mkDfEstados [recB, recC]) := by
  have h := C2_stats_invariant [recB, recC] (by decide)
  exact ⟨h.1, h.2.1⟩

/-- Claim C3: each displayed area equals the abstract EPSG:6933 area of the
record divided by 10^6 (square metres to square kilometres) rounded to two
decimals, and one hundred times the displayed value is the integer produced
by that rounding (so the value has exactly two decimal places). -/
theorem C3_area_display (rows : List RegionRecord) (sel : FilterSelection)
    (r : RegionRecord) (h : r ∈ filterRecords rows sel) :
    mkStatRow r ∈ mkDfEstados (filterRecords rows sel) ∧
    (mkStatRow r).area = round2 (r.areaM2_6933 / 10 ^ 6) ∧
    (mkStatRow r).area * 100 =
      ((round (r.areaM2_6933 / 10 ^ 6 * 100) : ℤ) : ℚ) := by
  refine ⟨?_, rfl, ?_⟩
  · unfold mkDfEstados
    exact List.mem_map_of_mem mkStatRow h
  · show areaKm2 r * 100 = _
    unfold areaKm2 round2
    rw [div_mul_cancel₀ _ (by norm_num : (100 : ℚ) ≠ 0)]

/-- Witness for C3 at region B of the concrete scenario. -/
theorem C3_area_display_witness :
    mkStatRow recB ∈ mkDfEstados (filterRecords datasetABC ["B", "C"]) ∧
    (mkStatRow recB).area = round2 (recB.areaM2_6933 / 10 ^ 6) ∧
    (mkStatRow recB).area * 100 =
      ((round (recB.areaM2_6933 / 10 ^ 6 * 100) : ℤ) : ℚ) :=
  C3_area_display datasetABC ["B", "C"] recB (by decide)

/-- Claim C4: the loader fails in exactly two fatal ways — a missing dataset
path halts the render pass with DatasetNotFound before any loading, and an
unparsable file halts it with DatasetParseError; in both cases no downstream
stage (filter, statistics, charts, map) executes, which the model expresses
by `runApp` returning a halt instead of a RenderOutput. -/
theorem C4_loader_fatal (env : Env) :
    (env.fileExists = false →
      runApp env = .error (.halted .DatasetNotFound)) ∧
    (env.fileExists = true → env.parsed = none →
      runApp env = .error (.halted .DatasetParseError)) := by
  constructor
  · intro h
    simp [runApp, h]
  · intro h1 h2
    simp [runApp, h1, h2]

/-- Witness for C4 at a missing file and at a parse failure. -/
theorem C4_loader_fatal_witness :
    runApp envNoFile = .error (.halted .DatasetNotFound) ∧
    runApp envBadParse = .error (.halted .DatasetParseError) :=
  ⟨(C4_loader_fatal envNoFile).1 rfl, (C4_loader_fatal envBadParse).2 rfl rfl⟩

/-- Claim C9: when the filtered view is empty, the emptiness guard skips the
statistics table and metrics, but the bar-chart stage still references
`df_estados`, which was never bound, so the render pass fails with a
NameError instead of degrading silently. -/
theorem C9_empty_view_crashes (env : Env) (gdf : GeoDataFrame)
    (h1 : env.fileExists = true) (h2 : env.parsed = some gdf)
    (h3 : "sta_name" ∈ gdf.columns)
    (h4 : filterRecords gdf.rows env.selection = []) :
    runApp env = .error (.crash (.nameError "df_estados")) := by
  simp [runApp, h1, h2, h3, statsBlock, h4]

/-- Witness for C9: selection ["Z"] matches no region of the scenario
dataset, and the render pass dies on the unbound `df_estados`. -/
theorem C9_empty_view_crashes_witness :
    runApp envEmptyView = .error (.crash (.nameError "df_estados")) :=
  C9_empty_view_crashes envEmptyView gdfABC rfl rfl (by decide) (by decide)

/-- Counterexample to claim C5: on a dataset lacking `sta_type` the pipeline
is not a silent no-op — with the all-regions selection the statistics
DataFrame construction reads `sta_type` and the render pass fails with a
KeyError, surfacing an error before the pie-chart guard is even reached. -/
theorem C5_counterexample :
    runApp envNoType = .error (.crash (.keyError "sta_type")) := by decide

/-- Claim C5 as amended: only the pie-chart stage is guarded on the presence
of `sta_type`; the statistics stage reads the column unconditionally, so on
a dataset lacking `sta_type` the render pass always fails — with KeyError
"sta_type" when the filtered view is non-empty, and with NameError
"df_estados" (the empty-view defect) when it is empty; the silent skip of
the pie chart is never observable. -/
theorem C5_amended (env : Env) (gdf : GeoDataFrame)
    (h1 : env.fileExists = true) (h2 : env.parsed = some gdf)
    (hname : "sta_name" ∈ gdf.columns) (hcode : "sta_code" ∈ gdf.columns)
    (htype : "sta_type" ∉ gdf.columns) :
    (filterRecords gdf.rows env.selection ≠ [] →
      runApp env = .error (.crash (.keyError "sta_type"))) ∧
    (filterRecords gdf.rows env.selection = [] →
      runApp env = .error (.crash (.nameError "df_estados"))) := by
  constructor
  · intro h
    have h5 : (filterRecords gdf.rows env.selection).isEmpty = false := by
      cases hfil : filterRecords gdf.rows env.selection with
      | nil => exact absurd hfil h
      | cons a l => rfl
    simp [runApp, h1, h2, hname, statsBlock, h5, hcode, htype]
  · intro h
    simp [runApp, h1, h2, hname, statsBlock, h]

/-- Witness for the amended C5 at the two concrete type-less environments. -/
theorem C5_amended_witness :
    runApp envNoType = .error (.crash (.keyError "sta_type")) ∧
    runApp envNoTypeEmptyView = .error (.crash (.nameError "df_estados")) :=
  ⟨(C5_amended envNoType gdfNoType rfl rfl (by decide) (by decide)
      (by decide)).1 (by decide),
   (C5_amended envNoTypeEmptyView gdfNoType rfl rfl (by decide) (by decide)
      (by decide)).2 (by decide)⟩

/-- Counterexample to claim C6: when the initial `folium.Map(...)` call
itself raises, the except handler reports the error but no map object was
ever bound, so `st_folium(m)` raises NameError and the render pass dies —
scene-assembly failure is fatal to the rest of the page in this case. -/
theorem C6_counterexample :
    runApp envMapFail0 = .error (.crash (.nameError "m")) := by decide

/-- Claim C6 as amended: an error raised at any step after the initial map
object is constructed is caught, reported as the handler text, and the page
still renders, displaying the partial scene that existed at the failure
point (and a fault-free pass displays the fully built scene); only an error
inside the initial `folium.Map` construction leaves `m` unbound and is
fatal, as the counterexample shows. -/
theorem C6_amended (capaBase : String) (filtered : List RegionRecord)
    (caps herr : Bool) (k : Nat)
    (_hk : k ≤ (mapSteps filtered caps herr).length) :
    mapSection capaBase filtered caps herr (some (k + 1)) =
      .ok (some mapErrorMsg, sceneUpTo capaBase filtered caps herr k) ∧
    mapSection capaBase filtered caps herr none =
      .ok (none, builtScene capaBase filtered caps herr) :=
  ⟨rfl, rfl⟩

/-- Witness for the amended C6: failure at the first post-construction step
over a one-region view still yields a rendered page with a partial scene. -/
theorem C6_amended_witness :
    mapSection "CartoDB positron" [recA] true true (some 1) =
      .ok (some mapErrorMsg, sceneUpTo "CartoDB positron" [recA] true true 0) ∧
    mapSection "CartoDB positron" [recA] true true none =
      .ok (none, builtScene "CartoDB positron" [recA] true true) :=
  C6_amended "CartoDB positron" [recA] true true 0 (by decide)

/-- Claim C7: with the show-capitals toggle on, the fully built scene
contains exactly the six hardcoded capital markers, and the marker set is
identical for any two selections (any two filtered views, base layers and
drawing-tool settings) — the markers do not depend on the active filter. -/
theorem C7_capitales_fixed (capaBase capaBase2 : String)
    (filtered filtered2 : List RegionRecord) (herr herr2 : Bool) :
    (builtScene capaBase filtered true herr).markers = capitales ∧
    capitales.length = 6 ∧
    (builtScene capaBase filtered true herr).markers =
      (builtScene capaBase2 filtered2 true herr2).markers := by
  cases herr <;> cases herr2 <;> exact ⟨rfl, rfl, rfl⟩

lemma mkStatRow_recA : mkStatRow recA = ⟨"A", "01", "Estado", 10⟩ := by
  norm_num [mkStatRow, recA, areaKm2, round2, round_eq]

lemma mkStatRow_recB : mkStatRow recB = ⟨"B", "02", "Estado", 30⟩ := by
  norm_num [mkStatRow, recB, areaKm2, round2, round_eq]

lemma mkStatRow_recC : mkStatRow recC = ⟨"C", "03", "Estado", 20⟩ := by
  norm_num [mkStatRow, recC, areaKm2, round2, round_eq]

/-- Claim C8: on the concrete dataset A(10 km²), B(30 km²), C(20 km²),
selection {B, C} yields the filtered view [B, C] in original order, the
descending statistics table [B(30), C(20)], largest region "B", column
maximum 30 and mean 25; the empty selection yields all three regions and
the ascending bar-chart order [A, C, B]. -/
theorem C8_concrete_scenario :
    filterRecords datasetABC ["B", "C"] = [recB, recC] ∧
    sortDescArea (mkDfEstados [recB, recC]) =
      [mkStatRow recB, mkStatRow recC] ∧
    (mkStatRow recB).area = 30 ∧
    (mkStatRow recC).area = 20 ∧
    reportedLargest (mkDfEstados [recB, recC]) = some "B" ∧
    areaColMax (mkDfEstados [recB, recC]) = some 30 ∧
    meanAreaMetric (mkDfEstados [recB, recC]) = 25 ∧
    filterRecords datasetABC [] = datasetABC ∧
    (sortAscArea (mkDfEstados datasetABC)).map (fun r => r.estado) =
      ["A", "C", "B"] := by
  refine ⟨by decide, ?_, ?_, ?_, ?_, ?_, ?_, by decide, ?_⟩
  · simp only [mkDfEstados, List.map, mkStatRow_recB, mkStatRow_recC]
    decide
  · rw [mkStatRow_recB]
  · rw [mkStatRow_recC]
  · simp only [mkDfEstados, List.map, mkStatRow_recB, mkStatRow_recC]
    decide
  · simp only [mkDfEstados, List.map, mkStatRow_recB, mkStatRow_recC]
    decide
  · simp only [mkDfEstados, List.map, mkStatRow_recB, mkStatRow_recC,
      meanAreaMetric]
    norm_num [round2, round_eq]
  · simp only [mkDfEstados, List.map, mkStatRow_recA, mkStatRow_recB,
      mkStatRow_recC, datasetABC]

/-- Claim C10: filtering with the selection equal to the full (sorted,
deduplicated) list of available state names returns the full collection,
exactly as the empty selection does — the default all-selected multiselect
state renders the same data as a cleared one. -/
theorem C10_full_selection (rows : List RegionRecord) :
    filterRecords rows (estados_disponibles rows) = rows ∧
    filterRecords rows [] = rows := by
  refine ⟨?_, by simp [filterRecords]⟩
  unfold filterRecords
  split
  · rfl
  · apply List.filter_eq_self.mpr
    intro r hr
    have hmem : r.sta_name ∈ estados_disponibles rows := by
      unfold estados_disponibles
      rw [List.mem_dedup, List.mem_insertionSort]
      exact List.mem_map_of_mem _ hr
    simpa using hmem
